import Mathlib

/-!
Shallow embedding of the vector similarity retrieval and chunk-storage
subsystem of the `ai-infra` repository: the data model (`app/models.py`),
authentication (`app/auth.py`), the chunk-ingestion and read endpoints
(`app/routers/ingest.py`), the similarity-search endpoint
(`app/routers/query.py`), and the bulk-insert service helper
(`app/services/insert.py`).

Database rows become Lean structures; the store is a `DB` record of row
lists kept in insertion (creation) order.  UUIDs become `Nat` identifiers;
server-side `gen_random_uuid()` becomes a deterministic fresh-id choice.
Endpoint handlers become pure functions from the store and the request to
an `Except` outcome; a SQL transaction that fails to commit yields an
error and, the transaction being rolled back, no new store.  The
similarity search is embedded as a relation because its SQL `ORDER BY` has
a single key: the row order among equal distances is not determined by the
query, so every distance-sorted permutation is an admissible outcome.
-/

deriving instance DecidableEq for Except

namespace App

/-- The `ApiKeyStatus` enum from `app/models.py`. -/
inductive ApiKeyStatus where
  | active
  | revoked
deriving DecidableEq, Repr

/-- The `DocumentStatus` enum from `app/models.py`. -/
inductive DocumentStatus where
  | uploaded
  | processing
  | ready
  | failed
deriving DecidableEq, Repr

/-- The `DocumentSourceType` enum from `app/models.py`. -/
inductive DocumentSourceType where
  | upload
  | url
  | manual
deriving DecidableEq, Repr

/-- The `IngestionStatus` enum from `app/models.py`. -/
inductive IngestionStatus where
  | queued
  | running
  | succeeded
  | failed
deriving DecidableEq, Repr

/-- A row of the `teams` table (`Team` in `app/models.py`); only the id
matters to the embedded operations. -/
structure Team where
  id : Nat
deriving DecidableEq, Repr

/-- A row of the `projects` table (`Project` in `app/models.py`). -/
structure Project where
  id : Nat
  team_id : Nat
deriving DecidableEq, Repr

/-- A row of the `api_keys` table (`ApiKey` in `app/models.py`).  The
SHA-256 hashing of the raw bearer token is outside the store; the stored
`key_hash` is compared against the hash of the presented token. -/
structure ApiKey where
  id : Nat
  team_id : Nat
  key_hash : String
  status : ApiKeyStatus
deriving DecidableEq, Repr

/-- A row of the `documents` table (`Document` in `app/models.py`).
`gcs_uri` and `mime_type` are never read by the embedded operations and
are omitted. -/
structure Document where
  id : Nat
  team_id : Nat
  project_id : Nat
  title : Option String
  source_type : DocumentSourceType
  status : DocumentStatus
deriving DecidableEq, Repr

/-- A row of the `document_chunks` table (`DocumentChunk` in
`app/models.py`).  Embedding entries are rationals; the pgvector
`Vector(1536)` column constrains a present embedding to 1536 entries at
insert time.  Creation order is the row's position in `DB.chunks`. -/
structure DocumentChunk where
  id : Nat
  document_id : Nat
  chunk_index : Int
  content : String
  embedding : Option (List ℚ)
  page_start : Option Int
  page_end : Option Int
  char_start : Option Int
  char_end : Option Int
  token_count : Option Int
deriving DecidableEq, Repr

/-- A row of the `ingestion_jobs` table (`IngestionJob` in
`app/models.py`); `chunks_created` is a nullable integer column. -/
structure IngestionJob where
  id : Nat
  document_id : Nat
  status : IngestionStatus
  chunks_created : Option Int
deriving DecidableEq, Repr

/-- The relational store: one list of rows per table, each in insertion
order. -/
structure DB where
  teams : List Team
  projects : List Project
  api_keys : List ApiKey
  documents : List Document
  chunks : List DocumentChunk
  jobs : List IngestionJob
deriving DecidableEq, Repr

/-- The configured embedding dimension (`EMBEDDING_DIM` in
`app/services/insert.py`, the literal `1536` in `app/routers/query.py`
and the `Vector(1536)` column in `app/models.py`). -/
def EMBEDDING_DIM : Nat := 1536

/-- Error outcomes surfaced by the embedded endpoints: `unauthenticated`
is HTTP 401 from `get_api_key`, `forbidden` is the 403 team check,
`validation` is the 422 dimension check in `similarity_search`,
`notFound` is 404, and `constraint` is a commit-time database error
(unique-constraint, foreign-key or vector-dimension violation) that
aborts the transaction. -/
inductive ApiError where
  | unauthenticated
  | forbidden
  | validation
  | notFound
  | constraint
deriving DecidableEq, Repr

/-- Embedding of `get_api_key` from `app/auth.py`: select the `api_keys` row whose
`key_hash` equals the SHA-256 of the presented token and whose status is
`active`; `scalar_one_or_none` yields the row only when exactly one
matches (zero matches is the 401 path; several matching rows raise, which
this embedding also folds into `none`). -/
def get_api_key (st : DB) (token_hash : String) : Option ApiKey :=
  match st.api_keys.filter
      (fun k => k.key_hash == token_hash && k.status == ApiKeyStatus.active) with
  | [k] => some k
  | _ => none

/-- The smallest `Nat` strictly above every listed id: the embedding's
deterministic stand-in for a server-generated fresh `gen_random_uuid()`. -/
def freshId (ids : List Nat) : Nat :=
  ids.foldr (fun i m => max (i + 1) m) 0

/-- Fresh id for a new `documents` row. -/
def freshDocId (st : DB) : Nat :=
  freshId (st.documents.map Document.id)

/-- First fresh id for a batch of new `document_chunks` rows. -/
def freshChunkId (st : DB) : Nat :=
  freshId (st.chunks.map DocumentChunk.id)

/-- Fresh id for a new `ingestion_jobs` row. -/
def freshJobId (st : DB) : Nat :=
  freshId (st.jobs.map IngestionJob.id)

/-- The pgvector `Vector(1536)` column type: a present embedding must
have exactly the configured dimension for the row to be insertable. -/
def chunkRowOk (c : DocumentChunk) : Bool :=
  match c.embedding with
  | none => true
  | some v => v.length == EMBEDDING_DIM

/-- Two chunk rows collide on the `uq_chunks_order` unique constraint
(`UniqueConstraint("document_id", "chunk_index")` in `app/models.py`). -/
def conflict (a b : DocumentChunk) : Bool :=
  a.document_id == b.document_id && a.chunk_index == b.chunk_index

/-- No two newly inserted rows collide with each other. -/
def noConflictWithin : List DocumentChunk → Bool
  | [] => true
  | c :: rest => rest.all (fun d => !conflict c d) && noConflictWithin rest

/-- No newly inserted row collides with an already stored row. -/
def noConflictAcross (old new : List DocumentChunk) : Bool :=
  new.all (fun c => old.all (fun d => !conflict c d))

/-- Commit-time acceptance of a batch of new chunk rows: every row fits
the vector column and the `uq_chunks_order` unique constraint holds
against the batch itself and the existing rows.  A `false` here is the
database refusing the transaction: nothing is persisted. -/
def insertOk (old new : List DocumentChunk) : Bool :=
  new.all chunkRowOk && noConflictWithin new && noConflictAcross old new

/-- The `ChunkCreate` request schema from `app/routers/ingest.py`: plain
pydantic fields, with no constraint on `content`, no dimension constraint
on `embedding`, and no uniqueness constraint on `chunk_index`. -/
structure ChunkCreate where
  content : String
  embedding : Option (List ℚ) := none
  chunk_index : Int
  page_start : Option Int := none
  page_end : Option Int := none
  token_count : Option Int := none
deriving DecidableEq, Repr

/-- The `IngestRequest` request schema from `app/routers/ingest.py`. -/
structure IngestRequest where
  title : String
  chunks : List ChunkCreate
deriving DecidableEq, Repr

/-- Python truthiness of the optional `embedding` field, as evaluated by
`all(c.embedding for c in body.chunks)` in `ingest_chunks`: `None` and
the empty list are falsy, a non-empty list is truthy. -/
def pyTruthy : Option (List ℚ) → Bool
  | none => false
  | some v => !v.isEmpty

/-- One `DocumentChunk` row produced by the loop body of `ingest_chunks`:
`char_start`/`char_end` are not passed by the endpoint and stay null. -/
def mkChunkRow (docId rowId : Nat) (c : ChunkCreate) : DocumentChunk :=
  { id := rowId
    document_id := docId
    chunk_index := c.chunk_index
    content := c.content
    embedding := c.embedding
    page_start := c.page_start
    page_end := c.page_end
    char_start := none
    char_end := none
    token_count := c.token_count }

/-- The chunk rows added by the `for chunk in body.chunks` loop of
`ingest_chunks`, in request order, with consecutive fresh row ids. -/
def mkRows (docId rowId : Nat) : List ChunkCreate → List DocumentChunk
  | [] => []
  | c :: rest => mkChunkRow docId rowId c :: mkRows docId (rowId + 1) rest

/-- The `Document` row built by `ingest_chunks`, including the status
assignment `doc.status = "ready" if all(c.embedding for c in body.chunks)
else "processing"` executed before commit. -/
def ingestDoc (st : DB) (team_id project_id : Nat) (body : IngestRequest) : Document :=
  { id := freshDocId st
    team_id := team_id
    project_id := project_id
    title := some body.title
    source_type := DocumentSourceType.manual
    status :=
      if body.chunks.all (fun c => pyTruthy c.embedding) then DocumentStatus.ready
      else DocumentStatus.processing }

/-- The `IngestionJob` row built by `ingest_chunks`: only `document_id`
and `chunks_created` are set, status takes the server default `queued`. -/
def ingestJob (st : DB) (docId : Nat) (n : Nat) : IngestionJob :=
  { id := freshJobId st
    document_id := docId
    status := IngestionStatus.queued
    chunks_created := some (Int.ofNat n) }

/-- Commit-time acceptance of the whole `ingest_chunks` transaction: the
new document row must satisfy its `team_id` and `project_id` foreign
keys, and the new chunk rows must satisfy `insertOk`. -/
def ingestCommitOk (st : DB) (doc : Document) (rows : List DocumentChunk) : Bool :=
  st.teams.any (fun t => t.id == doc.team_id) &&
  st.projects.any (fun p => p.id == doc.project_id) &&
  insertOk st.chunks rows

/-- The store after a successful `ingest_chunks` commit: the document,
its chunk rows and one job row are appended. -/
def ingestResult (st : DB) (doc : Document) (rows : List DocumentChunk) (job : IngestionJob) : DB :=
  { st with
    documents := st.documents ++ [doc]
    chunks := st.chunks ++ rows
    jobs := st.jobs ++ [job] }

/-- Embedding of `ingest_chunks` from `app/routers/ingest.py` (`POST
/ingest/\x7bteam_id\x7d/\x7bproject_id\x7d/chunks`): authenticate, check the
key's team against the *path* `team_id` only, build the document, the
chunk rows and the job, derive the status, and commit the single
transaction; a commit failure rolls everything back.  Note the endpoint
performs no embedding-dimension, content or duplicate-index validation of
its own. -/
def ingest_chunks (st : DB) (token_hash : String) (team_id project_id : Nat)
    (body : IngestRequest) : Except ApiError (DB × Document) :=
  match get_api_key st token_hash with
  | none => Except.error ApiError.unauthenticated
  | some current_key =>
    if current_key.team_id ≠ team_id then Except.error ApiError.forbidden
    else if ingestCommitOk st (ingestDoc st team_id project_id body)
        (mkRows (freshDocId st) (freshChunkId st) body.chunks) then
      Except.ok
        (ingestResult st (ingestDoc st team_id project_id body)
          (mkRows (freshDocId st) (freshChunkId st) body.chunks)
          (ingestJob st (freshDocId st) body.chunks.length),
         ingestDoc st team_id project_id body)
    else Except.error ApiError.constraint

/-- Embedding of `get_document` from `app/routers/ingest.py` (`GET
/ingest/documents/\x7bdocument_id\x7d`): authenticate, then fetch the row by
primary key.  The handler performs no team check on the fetched row. -/
def get_document (st : DB) (token_hash : String) (document_id : Nat) :
    Except ApiError Document :=
  match get_api_key st token_hash with
  | none => Except.error ApiError.unauthenticated
  | some _ =>
    match st.documents.find? (fun d => d.id == document_id) with
    | none => Except.error ApiError.notFound
    | some d => Except.ok d

/-- Embedding of `list_chunks` from `app/routers/ingest.py` (`GET
/ingest/documents/\x7bdocument_id\x7d/chunks`): authenticate, then return the
document's chunk rows ordered by `chunk_index` ascending. -/
def list_chunks (st : DB) (token_hash : String) (document_id : Nat) :
    Except ApiError (List DocumentChunk) :=
  match get_api_key st token_hash with
  | none => Except.error ApiError.unauthenticated
  | some _ =>
    Except.ok
      ((st.chunks.filter (fun c => c.document_id == document_id)).mergeSort
        (fun a b => decide (a.chunk_index ≤ b.chunk_index)))

/-- The owning team of a project, read through `projects.team_id`. -/
def projectTeam (st : DB) (project_id : Nat) : Option Nat :=
  (st.projects.find? (fun p => p.id == project_id)).map Project.team_id

/-- A chunk dict accepted by `insert_document_chunks` in
`app/services/insert.py`: `chunk_index`, `content` and `embedding` are
required keys, the rest are `.get(...)` optionals. -/
structure InsertChunk where
  chunk_index : Int
  content : String
  embedding : Option (List ℚ)
  page_start : Option Int := none
  page_end : Option Int := none
  char_start : Option Int := none
  char_end : Option Int := none
  token_count : Option Int := none
deriving DecidableEq, Repr

/-- Errors of `insert_document_chunks`: `valueError` is the explicit
dimension check raised before any row is constructed or written;
`integrityError` is a commit-time constraint violation, after which the
function rolls the transaction back and re-raises. -/
inductive InsertError where
  | valueError
  | integrityError
deriving DecidableEq, Repr

/-- One `DocumentChunk` row built by `insert_document_chunks`. -/
def mkServiceRow (docId rowId : Nat) (c : InsertChunk) : DocumentChunk :=
  { id := rowId
    document_id := docId
    chunk_index := c.chunk_index
    content := c.content
    embedding := c.embedding
    page_start := c.page_start
    page_end := c.page_end
    char_start := c.char_start
    char_end := c.char_end
    token_count := c.token_count }

/-- The rows built by the loop of `insert_document_chunks`. -/
def mkServiceRows (docId rowId : Nat) : List InsertChunk → List DocumentChunk
  | [] => []
  | c :: rest => mkServiceRow docId rowId c :: mkServiceRows docId (rowId + 1) rest

/-- Embedding of `insert_document_chunks` from `app/services/insert.py`: first a pure
validation pass raising `ValueError` on any present embedding whose
length differs from `EMBEDDING_DIM` (before any write), then
`add_all`/`flush`/`commit` of all rows in one transaction, rolled back on
`IntegrityError`.  The commit also enforces the `document_id` foreign key
and the chunk constraints. -/
def insert_document_chunks (st : DB) (document_id : Nat)
    (chunks : List InsertChunk) : Except InsertError (DB × List Nat) :=
  if chunks.any (fun c =>
      match c.embedding with
      | some v => v.length ≠ EMBEDDING_DIM
      | none => false) then
    Except.error InsertError.valueError
  else
    let rows := mkServiceRows document_id (freshChunkId st) chunks
    if st.documents.any (fun d => d.id == document_id) && insertOk st.chunks rows then
      Except.ok ({ st with chunks := st.chunks ++ rows }, rows.map DocumentChunk.id)
    else Except.error InsertError.integrityError

/-- Python's `round` to an integer: round half to even (banker's
rounding), as used by `round(1 - dist, 4)` in `similarity_search`. -/
def roundHalfEven (q : ℚ) : ℤ :=
  let f := ⌊q⌋
  let r := q - (f : ℚ)
  if r < 1 / 2 then f
  else if 1 / 2 < r then f + 1
  else if f % 2 = 0 then f else f + 1

/-- Python's `round(x, 4)`: round to four decimal digits, half to even. -/
def pyRound4 (q : ℚ) : ℚ :=
  (roundHalfEven (q * 10000) : ℚ) / 10000

/-- The `ChunkMatch` response schema from `app/routers/query.py`. -/
structure ChunkMatch where
  chunk_id : Nat
  document_id : Nat
  chunk_index : Int
  content : String
  score : ℚ
deriving DecidableEq, Repr

/-- The `QueryResponse` response schema from `app/routers/query.py`. -/
structure QueryResponse where
  project_id : Nat
  results : List ChunkMatch
deriving DecidableEq, Repr

/-- The candidate rows of the similarity-search SQL statement: chunks
whose `document_id` is in `select Document.id where Document.project_id
== project_id` and whose embedding is not null, in stored order. -/
def queryCandidates (st : DB) (project_id : Nat) : List DocumentChunk :=
  st.chunks.filter (fun c =>
    st.documents.any (fun d => d.id == c.document_id && d.project_id == project_id) &&
    c.embedding.isSome)

/-- The cosine distance pgvector computes between a stored chunk's
embedding and the query vector.  The `<=>` operator itself is pgvector
code outside this repository, so the metric is a parameter `dist`; every
theorem below holds for an arbitrary metric, the cosine one included. -/
def chunkDist (dist : List ℚ → List ℚ → ℚ) (q : List ℚ) (c : DocumentChunk) : ℚ :=
  dist (c.embedding.getD []) q

/-- One response row of `similarity_search`: the chunk's fields plus
`score = round(1 - dist, 4)`. -/
def toMatch (dist : List ℚ → List ℚ → ℚ) (q : List ℚ) (c : DocumentChunk) : ChunkMatch :=
  { chunk_id := c.id
    document_id := c.document_id
    chunk_index := c.chunk_index
    content := c.content
    score := pyRound4 (1 - chunkDist dist q c) }

/-- Boolean test that a list of chunks is pairwise ordered by
non-decreasing distance. -/
def pairwiseLeB (d : DocumentChunk → ℚ) : List DocumentChunk → Bool
  | [] => true
  | c :: rest => rest.all (fun c2 => decide (d c ≤ d c2)) && pairwiseLeB d rest

/-- Embedding of `similarity_search` from `app/routers/query.py` (`POST
/query/\x7bproject_id\x7d`), as a relation between the request and an
admissible outcome.  Authentication runs first (the handler never uses
the key beyond that); then the 422 dimension check on the query vector;
then the SQL statement selecting the candidates ordered by cosine
distance ascending with `LIMIT top_k`.  The `ORDER BY` has a single key,
so among equal distances the database may return the rows in any order:
the relation admits every distance-sorted permutation of the candidates,
truncated to `top_k`. -/
@[reducible]
def similarity_search (dist : List ℚ → List ℚ → ℚ) (st : DB) (token_hash : String)
    (project_id : Nat) (embedding : List ℚ) (top_k : Nat)
    (out : Except ApiError QueryResponse) : Prop :=
  (get_api_key st token_hash = none ∧ out = Except.error ApiError.unauthenticated) ∨
  (get_api_key st token_hash ≠ none ∧ embedding.length ≠ EMBEDDING_DIM ∧
    out = Except.error ApiError.validation) ∨
  (get_api_key st token_hash ≠ none ∧ embedding.length = EMBEDDING_DIM ∧
    ∃ perm ∈ (queryCandidates st project_id).permutations,
      pairwiseLeB (chunkDist dist embedding) perm = true ∧
      out = Except.ok
        { project_id := project_id
          results := (perm.take top_k).map (toMatch dist embedding) })

/-- Whether an endpoint outcome is a success. -/
def exceptIsOk : Except ApiError (DB × Document) → Bool
  | Except.ok _ => true
  | Except.error _ => false

/-- The contents of all stored chunk rows after an `ingest_chunks`
outcome (reading the old store back when the transaction failed). -/
def contentsAfter (st : DB) (o : Except ApiError (DB × Document)) : List String :=
  match o with
  | Except.ok p => p.1.chunks.map DocumentChunk.content
  | Except.error _ => st.chunks.map DocumentChunk.content

/-- The created document of a successful `ingest_chunks` outcome. -/
def docOf : Except ApiError (DB × Document) → Option Document
  | Except.ok p => some p.2
  | Except.error _ => none

/-- The last ingestion-job row of a successful `ingest_chunks` outcome. -/
def lastJobOf : Except ApiError (DB × Document) → Option IngestionJob
  | Except.ok p => p.1.jobs.getLast?
  | Except.error _ => none

/-- Referential integrity of the stored chunk rows: every chunk's
`document_id` foreign key resolves to a stored document, as the database
schema guarantees. -/
def chunkFk (st : DB) : Prop :=
  ∀ c ∈ st.chunks, ∃ d ∈ st.documents, d.id = c.document_id

/-- A batch contains two chunks sharing one `chunk_index`. -/
def hasDupIdx : List ChunkCreate → Bool
  | [] => false
  | c :: rest => rest.any (fun d => c.chunk_index == d.chunk_index) || hasDupIdx rest

/-- A request chunk whose embedding, when present, has the configured
dimension (so that the corresponding row fits the vector column). -/
def chunkCreateOk (c : ChunkCreate) : Bool :=
  match c.embedding with
  | none => true
  | some v => v.length == EMBEDDING_DIM

/- ── Helper lemmas about fresh ids and batch rows ────────────────────── -/

theorem lt_freshId {ids : List Nat} {i : Nat} (h : i ∈ ids) : i < freshId ids := by
  induction ids with
  | nil => cases h
  | cons a t ih =>
    rcases List.mem_cons.mp h with h1 | h2
    · subst h1
      exact Nat.lt_of_lt_of_le (Nat.lt_succ_self i) (Nat.le_max_left _ _)
    · exact Nat.lt_of_lt_of_le (ih h2) (Nat.le_max_right _ _)

theorem freshDocId_not_referenced {st : DB} (hfk : chunkFk st) :
    ∀ c ∈ st.chunks, c.document_id ≠ freshDocId st := by
  intro c hc
  obtain ⟨d, hd, hid⟩ := hfk c hc
  have : d.id < freshDocId st := lt_freshId (List.mem_map_of_mem Document.id hd)
  omega

theorem mkRows_docid {d b : Nat} {l : List ChunkCreate} :
    ∀ r ∈ mkRows d b l, r.document_id = d := by
  induction l generalizing b with
  | nil => intro r hr; cases hr
  | cons c rest ih =>
    intro r hr
    rcases List.mem_cons.mp hr with h1 | h2
    · subst h1; rfl
    · exact ih r h2

theorem mem_mkRows {d b : Nat} {l : List ChunkCreate} :
    ∀ r ∈ mkRows d b l, ∃ c ∈ l,
      r.embedding = c.embedding ∧ r.content = c.content ∧ r.chunk_index = c.chunk_index := by
  induction l generalizing b with
  | nil => intro r hr; cases hr
  | cons c rest ih =>
    intro r hr
    rcases List.mem_cons.mp hr with h1 | h2
    · exact ⟨c, List.mem_cons_self c rest, by subst h1; exact ⟨rfl, rfl, rfl⟩⟩
    · obtain ⟨c2, hc2, he⟩ := ih r h2
      exact ⟨c2, List.mem_cons_of_mem c hc2, he⟩

theorem mkRows_map_content {d b : Nat} {l : List ChunkCreate} :
    (mkRows d b l).map DocumentChunk.content = l.map ChunkCreate.content := by
  induction l generalizing b with
  | nil => rfl
  | cons c rest ih => simp [mkRows, mkChunkRow, ih]

theorem mkRows_all_chunkRowOk {d b : Nat} {l : List ChunkCreate} :
    (mkRows d b l).all chunkRowOk = l.all chunkCreateOk := by
  induction l generalizing b with
  | nil => rfl
  | cons c rest ih => simp [mkRows, mkChunkRow, chunkRowOk, chunkCreateOk, ih]

theorem mkRows_all_not_conflict {d b bx : Nat} {x : ChunkCreate} {l : List ChunkCreate} :
    (mkRows d b l).all (fun r => !conflict (mkChunkRow d bx x) r) =
      !l.any (fun c => x.chunk_index == c.chunk_index) := by
  induction l generalizing b with
  | nil => rfl
  | cons c rest ih =>
    simp only [mkRows, List.all_cons, List.any_cons, Bool.not_or, ih]
    simp [conflict, mkChunkRow]

theorem noConflictWithin_mkRows {d b : Nat} {l : List ChunkCreate} :
    noConflictWithin (mkRows d b l) = !hasDupIdx l := by
  induction l generalizing b with
  | nil => rfl
  | cons c rest ih =>
    simp only [mkRows, noConflictWithin, hasDupIdx, Bool.not_or, ih,
      mkRows_all_not_conflict]

theorem noConflictAcross_mkRows {old : List DocumentChunk} {d b : Nat}
    {l : List ChunkCreate} (h : ∀ c ∈ old, c.document_id ≠ d) :
    noConflictAcross old (mkRows d b l) = true := by
  rw [noConflictAcross, List.all_eq_true]
  intro r hr
  rw [List.all_eq_true]
  intro c2 hc2
  have hd : r.document_id = d := mkRows_docid r hr
  have hne : c2.document_id ≠ d := h c2 hc2
  simp [conflict, hd]
  exact Or.inl (fun habs => hne habs.symm)

/-- Inversion of a successful `ingest_chunks` call: authentication and the
team check passed, the transaction committed, and the outcome is exactly
the appended store and the built document. -/
theorem ingest_chunks_ok_inv {st st' : DB} {h : String} {team pid : Nat}
    {body : IngestRequest} {doc : Document}
    (hok : ingest_chunks st h team pid body = Except.ok (st', doc)) :
    (∃ k, get_api_key st h = some k ∧ k.team_id = team) ∧
    ingestCommitOk st (ingestDoc st team pid body)
      (mkRows (freshDocId st) (freshChunkId st) body.chunks) = true ∧
    st' = ingestResult st (ingestDoc st team pid body)
      (mkRows (freshDocId st) (freshChunkId st) body.chunks)
      (ingestJob st (freshDocId st) body.chunks.length) ∧
    doc = ingestDoc st team pid body := by
  unfold ingest_chunks at hok
  cases hg : get_api_key st h with
  | none => simp only [hg] at hok; cases hok
  | some k =>
    simp only [hg] at hok
    by_cases ht : k.team_id ≠ team
    · rw [if_pos ht] at hok; cases hok
    · rw [if_neg ht] at hok
      by_cases hc : ingestCommitOk st (ingestDoc st team pid body)
          (mkRows (freshDocId st) (freshChunkId st) body.chunks) = true
      · rw [if_pos hc] at hok
        have hpair := Except.ok.inj hok
        refine ⟨⟨k, rfl, by omega⟩, hc, ?_, ?_⟩
        · exact (congrArg Prod.fst hpair).symm
        · exact (congrArg Prod.snd hpair).symm
      · rw [if_neg hc] at hok; cases hok

/- ── C5: a batch with a duplicated chunk_index is wholly rejected ────── -/

/-- C5: an ingestion batch containing two chunks with the same
`chunk_index` for the one document being created violates the
`uq_chunks_order` unique constraint at commit time, so the whole
transaction is rejected (`constraint` error, the store unchanged) and the
chunk-listing operation for the would-be document still shows no chunk
from the batch. -/
theorem C5_duplicate_chunk_index_batch_rejected
    (st : DB) (h : String) (k : ApiKey) (team pid : Nat) (body : IngestRequest)
    (hk : get_api_key st h = some k) (hteam : k.team_id = team)
    (hdup : hasDupIdx body.chunks = true)
    (hfk : chunkFk st) :
    ingest_chunks st h team pid body = Except.error ApiError.constraint ∧
    list_chunks st h (freshDocId st) = Except.ok [] := by
  subst hteam
  constructor
  · unfold ingest_chunks
    simp only [hk]
    rw [if_neg (by simp)]
    rw [if_neg]
    simp [ingestCommitOk, insertOk, noConflictWithin_mkRows, hdup]
  · unfold list_chunks
    simp only [hk]
    have hfilter : st.chunks.filter (fun c => c.document_id == freshDocId st) = [] := by
      rw [List.filter_eq_nil_iff]
      intro c hc
      simp only [beq_iff_eq]
      exact freshDocId_not_referenced hfk c hc
    rw [hfilter]
    simp [List.mergeSort_nil]

/-- Store fixture for the C5 witness: one team, one project, an active
key, and an empty chunk table. -/
def stW5 : DB :=
  { teams := [⟨1⟩]
    projects := [⟨10, 1⟩]
    api_keys := [⟨7, 1, "k5", ApiKeyStatus.active⟩]
    documents := []
    chunks := []
    jobs := [] }

/-- Key fixture for the C5 witness. -/
def keyW5 : ApiKey := ⟨7, 1, "k5", ApiKeyStatus.active⟩

/-- Batch fixture for the C5 witness: two chunks with chunk_index 0. -/
def bodyW5 : IngestRequest :=
  { title := "dup"
    chunks := [{ content := "a", chunk_index := 0 },
               { content := "b", chunk_index := 0 }] }

/-- Witness for C5 at a concrete store and batch. -/
theorem C5_duplicate_chunk_index_batch_rejected_witness :
    (get_api_key stW5 "k5" = some keyW5 ∧ keyW5.team_id = 1 ∧
      hasDupIdx bodyW5.chunks = true) ∧
    (ingest_chunks stW5 "k5" 1 10 bodyW5 = Except.error ApiError.constraint ∧
      list_chunks stW5 "k5" (freshDocId stW5) = Except.ok []) :=
  ⟨⟨by decide, by decide, by decide⟩,
   C5_duplicate_chunk_index_batch_rejected stW5 "k5" keyW5 1 10 bodyW5
     (by decide) (by decide) (by decide) (by intro c hc; cases hc)⟩

/- ── C10: an empty batch succeeds with a ready document and 0 chunks ─── -/

/-- C10: ingesting a request whose `chunks` list is empty succeeds (201):
`all` of an empty generator is `True`, so the created document's status is
`ready`; the ingestion job records `chunks_created = 0`; and no chunk row
is persisted. -/
theorem C10_empty_batch_creates_ready_document
    (st : DB) (h : String) (k : ApiKey) (team pid : Nat) (title : String)
    (hk : get_api_key st h = some k) (hteam : k.team_id = team)
    (hteamfk : st.teams.any (fun t => t.id == team) = true)
    (hprojfk : st.projects.any (fun p => p.id == pid) = true) :
    exceptIsOk (ingest_chunks st h team pid { title := title, chunks := [] }) = true ∧
    (docOf (ingest_chunks st h team pid { title := title, chunks := [] })).map
        Document.status = some DocumentStatus.ready ∧
    contentsAfter st (ingest_chunks st h team pid { title := title, chunks := [] })
        = st.chunks.map DocumentChunk.content ∧
    (lastJobOf (ingest_chunks st h team pid { title := title, chunks := [] })).map
        IngestionJob.chunks_created = some (some 0) ∧
    (lastJobOf (ingest_chunks st h team pid { title := title, chunks := [] })).map
        IngestionJob.document_id
      = (docOf (ingest_chunks st h team pid { title := title, chunks := [] })).map
        Document.id := by
  subst hteam
  have hcommit : ingestCommitOk st (ingestDoc st k.team_id pid { title := title, chunks := [] })
      (mkRows (freshDocId st) (freshChunkId st)
        (IngestRequest.chunks { title := title, chunks := [] })) = true := by
    simp [ingestCommitOk, insertOk, mkRows, noConflictWithin, noConflictAcross,
      ingestDoc, hteamfk, hprojfk]
  have hout : ingest_chunks st h k.team_id pid { title := title, chunks := [] }
      = Except.ok
          (ingestResult st (ingestDoc st k.team_id pid { title := title, chunks := [] })
            (mkRows (freshDocId st) (freshChunkId st) [])
            (ingestJob st (freshDocId st) ([] : List ChunkCreate).length),
           ingestDoc st k.team_id pid { title := title, chunks := [] }) := by
    unfold ingest_chunks
    simp only [hk]
    rw [if_neg (by simp)]
    rw [if_pos hcommit]
  rw [hout]
  refine ⟨rfl, ?_, ?_, ?_, ?_⟩
  · simp [docOf, ingestDoc]
  · simp [contentsAfter, ingestResult, mkRows]
  · simp [lastJobOf, ingestResult, List.getLast?_concat, ingestJob]
  · simp [lastJobOf, docOf, ingestResult, List.getLast?_concat, ingestJob, ingestDoc]

/-- Witness for C10 at a concrete store. -/
theorem C10_empty_batch_creates_ready_document_witness :
    (get_api_key stW5 "k5" = some keyW5 ∧ keyW5.team_id = 1 ∧
      stW5.teams.any (fun t => t.id == 1) = true ∧
      stW5.projects.any (fun p => p.id == 10) = true) ∧
    (exceptIsOk (ingest_chunks stW5 "k5" 1 10 { title := "empty", chunks := [] }) = true ∧
     (docOf (ingest_chunks stW5 "k5" 1 10 { title := "empty", chunks := [] })).map
         Document.status = some DocumentStatus.ready ∧
     contentsAfter stW5 (ingest_chunks stW5 "k5" 1 10 { title := "empty", chunks := [] })
         = stW5.chunks.map DocumentChunk.content ∧
     (lastJobOf (ingest_chunks stW5 "k5" 1 10 { title := "empty", chunks := [] })).map
         IngestionJob.chunks_created = some (some 0) ∧
     (lastJobOf (ingest_chunks stW5 "k5" 1 10 { title := "empty", chunks := [] })).map
         IngestionJob.document_id
       = (docOf (ingest_chunks stW5 "k5" 1 10 { title := "empty", chunks := [] })).map
         Document.id) :=
  ⟨⟨by decide, by decide, by decide, by decide⟩,
   C10_empty_batch_creates_ready_document stW5 "k5" keyW5 1 10 "empty"
     (by decide) (by decide) (by decide) (by decide)⟩

/- ── C6: ready status exactly reflects full embedding coverage ───────── -/

/-- C6: on a successful pre-embedded ingestion, the created document's
status is `ready` exactly when every chunk of the batch carries an
embedding, and `ready` implies every stored chunk of that document has a
non-null embedding.  (Python evaluates `all(c.embedding ...)` by
truthiness, but a successful commit forces every present embedding to
have 1536 entries, so truthiness coincides with presence.) -/
theorem C6_ready_status_iff_all_embedded
    (st st' : DB) (h : String) (team pid : Nat) (body : IngestRequest) (doc : Document)
    (hfk : chunkFk st)
    (hok : ingest_chunks st h team pid body = Except.ok (st', doc)) :
    (doc.status = DocumentStatus.ready ↔ ∀ c ∈ body.chunks, c.embedding ≠ none) ∧
    (doc.status = DocumentStatus.ready →
      ∀ c ∈ st'.chunks, c.document_id = doc.id → c.embedding ≠ none) := by
  obtain ⟨-, hcommit, hst', hdoc⟩ := ingest_chunks_ok_inv hok
  have hdims : body.chunks.all chunkCreateOk = true := by
    have hrows : (mkRows (freshDocId st) (freshChunkId st) body.chunks).all chunkRowOk
        = true := by
      simp only [ingestCommitOk, insertOk, Bool.and_eq_true] at hcommit
      tauto
    rw [mkRows_all_chunkRowOk] at hrows
    exact hrows
  have hiff : doc.status = DocumentStatus.ready ↔ ∀ c ∈ body.chunks, c.embedding ≠ none := by
    subst hdoc
    cases hall : body.chunks.all (fun c => pyTruthy c.embedding) with
    | true =>
      simp only [ingestDoc, hall, if_true]
      constructor
      · intro _ c hc
        have htr := List.all_eq_true.mp hall c hc
        cases hemb : c.embedding with
        | none => rw [hemb] at htr; simp [pyTruthy] at htr
        | some v => simp [hemb]
      · intro _; trivial
    | false =>
      simp only [ingestDoc, hall, Bool.false_eq_true, if_false]
      have hne : DocumentStatus.processing ≠ DocumentStatus.ready := by simp
      rw [iff_of_false hne]
      intro hforall
      have hnot : ¬ ∀ c ∈ body.chunks, pyTruthy c.embedding = true := by
        rw [← List.all_eq_true]; simp [hall]
      push_neg at hnot
      obtain ⟨c, hc, hfalse0⟩ := hnot
      have hfalse : pyTruthy c.embedding = false := by
        revert hfalse0; cases pyTruthy c.embedding <;> simp
      have hcemb : c.embedding = none := by
        cases hemb : c.embedding with
        | none => rfl
        | some v =>
          exfalso
          have hok2 := List.all_eq_true.mp hdims c hc
          simp only [chunkCreateOk, hemb, beq_iff_eq] at hok2
          rw [hemb] at hfalse
          simp only [pyTruthy] at hfalse
          have hvempty : v = [] := by
            cases v with
            | nil => rfl
            | cons a t => simp at hfalse
          rw [hvempty] at hok2
          simp [EMBEDDING_DIM] at hok2
      exact absurd hcemb (hforall c hc)
  refine ⟨hiff, ?_⟩
  intro hready c hc hcd
  rw [hst'] at hc
  simp only [ingestResult] at hc
  rcases List.mem_append.mp hc with hold | hnew
  · exfalso
    have hid : doc.id = freshDocId st := by rw [hdoc]; rfl
    exact freshDocId_not_referenced hfk c hold (hcd.trans hid)
  · obtain ⟨orig, horig, hemb, -, -⟩ := mem_mkRows c hnew
    rw [hemb]
    exact hiff.mp hready orig horig

/-- Batch fixture for the C6 witness: one chunk without an embedding. -/
def bodyW6 : IngestRequest :=
  { title := "t6", chunks := [{ content := "c0", chunk_index := 0 }] }

/-- Created document of the C6 witness ingestion. -/
def docW6 : Document :=
  { id := 0, team_id := 1, project_id := 10, title := some "t6",
    source_type := DocumentSourceType.manual, status := DocumentStatus.processing }

/-- Store after the C6 witness ingestion. -/
def stW6 : DB :=
  { teams := [⟨1⟩]
    projects := [⟨10, 1⟩]
    api_keys := [⟨7, 1, "k5", ApiKeyStatus.active⟩]
    documents := [docW6]
    chunks := [{ id := 0, document_id := 0, chunk_index := 0, content := "c0",
                 embedding := none, page_start := none, page_end := none,
                 char_start := none, char_end := none, token_count := none }]
    jobs := [{ id := 0, document_id := 0, status := IngestionStatus.queued,
               chunks_created := some 1 }] }

/-- Witness for C6 at a concrete successful ingestion. -/
theorem C6_ready_status_iff_all_embedded_witness :
    (chunkFk stW5 ∧ ingest_chunks stW5 "k5" 1 10 bodyW6 = Except.ok (stW6, docW6)) ∧
    ((docW6.status = DocumentStatus.ready ↔ ∀ c ∈ bodyW6.chunks, c.embedding ≠ none) ∧
     (docW6.status = DocumentStatus.ready →
       ∀ c ∈ stW6.chunks, c.document_id = docW6.id → c.embedding ≠ none)) :=
  ⟨⟨(by intro c hc; cases hc), by decide⟩,
   C6_ready_status_iff_all_embedded stW5 stW6 "k5" 1 10 bodyW6 docW6
     (by intro c hc; cases hc) (by decide)⟩

/- ── C7 and C8: the similarity-search result envelope ────────────────── -/

theorem pairwiseLeB_iff {d : DocumentChunk → ℚ} {l : List DocumentChunk} :
    pairwiseLeB d l = true ↔ List.Pairwise (fun a b => d a ≤ d b) l := by
  induction l with
  | nil => simp [pairwiseLeB]
  | cons c rest ih =>
    simp [pairwiseLeB, List.pairwise_cons, ih, List.all_eq_true]

/-- Inversion of a successful `similarity_search` outcome: the query
vector had the configured dimension and the response is built from a
distance-sorted permutation of the candidates. -/
theorem similarity_search_ok_inv {dist : List ℚ → List ℚ → ℚ} {st : DB} {h : String}
    {pid : Nat} {q : List ℚ} {k : Nat} {resp : QueryResponse}
    (hrel : similarity_search dist st h pid q k (Except.ok resp)) :
    q.length = EMBEDDING_DIM ∧
    ∃ perm, perm.Perm (queryCandidates st pid) ∧
      List.Pairwise (fun a b => chunkDist dist q a ≤ chunkDist dist q b) perm ∧
      resp = { project_id := pid, results := (perm.take k).map (toMatch dist q) } := by
  rcases hrel with ⟨-, habs⟩ | ⟨-, -, habs⟩ | ⟨-, hlen, perm, hmem, hsort, heq⟩
  · cases habs
  · cases habs
  · exact ⟨hlen, perm, List.mem_permutations.mp hmem, pairwiseLeB_iff.mp hsort,
      Except.ok.inj heq⟩

/-- C7: any admissible response to a valid-dimension query is scoped to
the queried project's non-null-embedding chunks, is ranked by
non-decreasing cosine distance (non-increasing similarity), reports each
score as `round(1 - distance, 4)`, and has length `min top_k
(number of candidates)` — so at most `top_k`, and all candidates when
fewer than `top_k` exist. -/
theorem C7_query_results_scoped_ranked_bounded
    (dist : List ℚ → List ℚ → ℚ) (st : DB) (h : String) (pid : Nat)
    (q : List ℚ) (k : Nat) (resp : QueryResponse)
    (hrel : similarity_search dist st h pid q k (Except.ok resp)) :
    resp.project_id = pid ∧
    resp.results.length = min k (queryCandidates st pid).length ∧
    (∃ cs : List DocumentChunk,
      (∀ c ∈ cs, c ∈ queryCandidates st pid) ∧
      List.Pairwise (fun a b => chunkDist dist q a ≤ chunkDist dist q b) cs ∧
      resp.results = cs.map (toMatch dist q)) ∧
    ∀ m ∈ resp.results, ∃ c ∈ st.chunks,
      m.chunk_id = c.id ∧ m.content = c.content ∧ c.embedding ≠ none ∧
      (∃ d ∈ st.documents, d.id = c.document_id ∧ d.project_id = pid) ∧
      m.score = pyRound4 (1 - chunkDist dist q c) := by
  obtain ⟨-, perm, hperm, hsort, hresp⟩ := similarity_search_ok_inv hrel
  subst hresp
  have hcand : ∀ c ∈ perm.take k, c ∈ queryCandidates st pid := by
    intro c hc
    exact hperm.mem_iff.mp (List.mem_of_mem_take hc)
  refine ⟨rfl, ?_, ⟨perm.take k, hcand, ?_, rfl⟩, ?_⟩
  · simp [List.length_take, hperm.length_eq]
  · exact List.Pairwise.sublist (List.take_sublist k perm) hsort
  · intro m hm
    obtain ⟨c, hctake, rfl⟩ := List.mem_map.mp hm
    have hc := hcand c hctake
    rw [queryCandidates, List.mem_filter] at hc
    obtain ⟨hmem, hpred⟩ := hc
    rw [Bool.and_eq_true] at hpred
    obtain ⟨hany, hsome⟩ := hpred
    obtain ⟨d, hd, hdid⟩ := List.any_eq_true.mp hany
    rw [Bool.and_eq_true, beq_iff_eq, beq_iff_eq] at hdid
    refine ⟨c, hmem, rfl, rfl, ?_, ⟨d, hd, hdid.1, hdid.2⟩, rfl⟩
    intro habs
    rw [habs] at hsome
    cases hsome

/-- C8 (amended): the score sequence of an admissible response is a
function of the store and the query — any two admissible responses agree
on project id, length, and the ordered list of scores (only the identity
and order of equal-scoring chunks may differ). -/
theorem C8_amended_score_sequence_deterministic
    (dist : List ℚ → List ℚ → ℚ) (st : DB) (h : String) (pid : Nat)
    (q : List ℚ) (k : Nat) (r1 r2 : QueryResponse)
    (h1 : similarity_search dist st h pid q k (Except.ok r1))
    (h2 : similarity_search dist st h pid q k (Except.ok r2)) :
    r1.project_id = r2.project_id ∧
    r1.results.length = r2.results.length ∧
    r1.results.map ChunkMatch.score = r2.results.map ChunkMatch.score := by
  obtain ⟨-, p1, hp1, hs1, hr1⟩ := similarity_search_ok_inv h1
  obtain ⟨-, p2, hp2, hs2, hr2⟩ := similarity_search_ok_inv h2
  subst hr1
  subst hr2
  have hmapeq : p1.map (chunkDist dist q) = p2.map (chunkDist dist q) := by
    have hs1m : List.Sorted (· ≤ ·) (p1.map (chunkDist dist q)) :=
      (List.pairwise_map).mpr hs1
    have hs2m : List.Sorted (· ≤ ·) (p2.map (chunkDist dist q)) :=
      (List.pairwise_map).mpr hs2
    exact List.eq_of_perm_of_sorted ((hp1.trans hp2.symm).map (chunkDist dist q)) hs1m hs2m
  have hlen : p1.length = p2.length := by
    rw [hp1.length_eq, hp2.length_eq]
  refine ⟨rfl, ?_, ?_⟩
  · simp [List.length_take, hlen]
  · have key : ∀ p : List DocumentChunk,
        ((p.take k).map (toMatch dist q)).map ChunkMatch.score
          = ((p.map (chunkDist dist q)).map (fun x => pyRound4 (1 - x))).take k := by
      intro p
      rw [List.map_map, List.map_map, ← List.map_take]
      rfl
    rw [key p1, key p2, hmapeq]

/- ── Shared concrete fixtures ────────────────────────────────────────── -/

/-- A query vector of the configured dimension. -/
def qv : List ℚ := List.replicate 1536 0

/-- A concrete distance metric instantiating the pgvector parameter. -/
def dZero : List ℚ → List ℚ → ℚ := fun _ _ => 0

/-- An active API key belonging to team 1. -/
def keyA : ApiKey := ⟨7, 1, "ka", ApiKeyStatus.active⟩

/-- A document owned by team 2 under team 2's project 10. -/
def docB : Document :=
  ⟨100, 2, 10, some "bdoc", DocumentSourceType.manual, DocumentStatus.ready⟩

/-- An embedded chunk of team 2's document. -/
def chunkB : DocumentChunk :=
  ⟨1000, 100, 0, "team B secret chunk", some qv, none, none, none, none, none⟩

/-- Store with two teams: team 1 holds the key `"ka"`, team 2 owns
project 10 with one embedded chunk. -/
def stC1 : DB :=
  { teams := [⟨1⟩, ⟨2⟩]
    projects := [⟨10, 2⟩]
    api_keys := [keyA]
    documents := [docB]
    chunks := [chunkB]
    jobs := [] }

/-- The response the query endpoint serves to team 1's key for team 2's
project. -/
def respC1 : QueryResponse :=
  { project_id := 10
    results := [⟨1000, 100, 0, "team B secret chunk", pyRound4 (1 - 0)⟩] }

/-- The query relation admits `respC1` on `stC1`. -/
theorem stC1_query_admits_respC1 :
    similarity_search dZero stC1 "ka" 10 qv 5 (Except.ok respC1) :=
  Or.inr (Or.inr ⟨by decide, by rw [qv, List.length_replicate]; rfl,
    ⟨[chunkB], List.mem_permutations.mpr (List.Perm.refl _), rfl, rfl⟩⟩)

/- ── C1: the query endpoint never checks the key's team ──────────────── -/

/-- C1: evaluating `similarity_search` at the failing input — an active
key of team 1 querying project 10, which is owned by team 2 — the
endpoint authenticates the key, never compares its team to the project's
owner, and serves team 2's chunk content with HTTP 200: neither Forbidden
nor an empty result. -/
theorem C1_cross_team_query_returns_other_team_chunk :
    get_api_key stC1 "ka" = some keyA ∧ keyA.team_id = 1 ∧
    projectTeam stC1 10 = some 2 ∧
    similarity_search dZero stC1 "ka" 10 qv 5 (Except.ok respC1) ∧
    respC1.results.map ChunkMatch.content = ["team B secret chunk"] :=
  ⟨by decide, rfl, by decide, stC1_query_admits_respC1, rfl⟩

/- ── C4: get_document never checks the key's team ────────────────────── -/

/-- C4: evaluating `get_document` at the failing input — an active key of
team 1 fetching team 2's document 100 — the handler returns the document
(200), not a denial: the fetched row's team is never compared to the
caller's. -/
theorem C4_cross_team_get_document_returns_document :
    get_api_key stC1 "ka" = some keyA ∧ keyA.team_id = 1 ∧ docB.team_id = 2 ∧
    get_document stC1 "ka" 100 = Except.ok docB := by
  refine ⟨by decide, rfl, rfl, ?_⟩
  decide

/- ── C3: ingest checks only the path team, not the project's owner ───── -/

/-- Store for C3: team 1 holds key `"ka"`; project 10 belongs to team 2;
no documents yet. -/
def stC3 : DB :=
  { teams := [⟨1⟩, ⟨2⟩]
    projects := [⟨10, 2⟩]
    api_keys := [keyA]
    documents := []
    chunks := []
    jobs := [] }

/-- Batch for C3. -/
def bodyC3 : IngestRequest :=
  { title := "intrude", chunks := [{ content := "x", chunk_index := 0 }] }

/-- C3: evaluating `ingest_chunks` at the failing input — an active key
of team 1 posting to `/ingest/1/10/chunks` where project 10 is owned by
team 2 — the request is allowed (201) because the handler compares the
key's team only to the path `team_id`, never to the project's owning
team: a document is created under another team's project. -/
theorem C3_cross_team_ingest_allowed :
    get_api_key stC3 "ka" = some keyA ∧ keyA.team_id = 1 ∧
    projectTeam stC3 10 = some 2 ∧
    exceptIsOk (ingest_chunks stC3 "ka" 1 10 bodyC3) = true ∧
    (docOf (ingest_chunks stC3 "ka" 1 10 bodyC3)).map Document.project_id = some 10 ∧
    (docOf (ingest_chunks stC3 "ka" 1 10 bodyC3)).map Document.team_id = some 1 := by
  refine ⟨by decide, rfl, by decide, ?_, ?_, ?_⟩ <;> decide

/- ── C7 witness ──────────────────────────────────────────────────────── -/

/-- Witness for C7 at the concrete store `stC1`. -/
theorem C7_query_results_scoped_ranked_bounded_witness :
    similarity_search dZero stC1 "ka" 10 qv 5 (Except.ok respC1) ∧
    (respC1.project_id = 10 ∧
     respC1.results.length = min 5 (queryCandidates stC1 10).length ∧
     (∃ cs : List DocumentChunk,
       (∀ c ∈ cs, c ∈ queryCandidates stC1 10) ∧
       List.Pairwise (fun a b => chunkDist dZero qv a ≤ chunkDist dZero qv b) cs ∧
       respC1.results = cs.map (toMatch dZero qv)) ∧
     ∀ m ∈ respC1.results, ∃ c ∈ stC1.chunks,
       m.chunk_id = c.id ∧ m.content = c.content ∧ c.embedding ≠ none ∧
       (∃ d ∈ stC1.documents, d.id = c.document_id ∧ d.project_id = 10) ∧
       m.score = pyRound4 (1 - chunkDist dZero qv c)) :=
  ⟨stC1_query_admits_respC1,
   C7_query_results_scoped_ranked_bounded dZero stC1 "ka" 10 qv 5 respC1
     stC1_query_admits_respC1⟩

/- ── C8: no tie-break in the ORDER BY ────────────────────────────────── -/

/-- First-inserted of the two equal-distance chunks (id 500). -/
def chunkT0 : DocumentChunk :=
  ⟨500, 200, 0, "first", some qv, none, none, none, none, none⟩

/-- Second-inserted of the two equal-distance chunks (id 501). -/
def chunkT1 : DocumentChunk :=
  ⟨501, 200, 1, "second", some qv, none, none, none, none, none⟩

/-- Store for C8: one project with one document carrying two embedded
chunks at identical distance from the query vector. -/
def stT : DB :=
  { teams := [⟨1⟩]
    projects := [⟨10, 1⟩]
    api_keys := [⟨8, 1, "kt", ApiKeyStatus.active⟩]
    documents := [⟨200, 1, 10, some "d", DocumentSourceType.manual, DocumentStatus.ready⟩]
    chunks := [chunkT0, chunkT1]
    jobs := [] }

/-- Tied response in insertion order. -/
def respT01 : QueryResponse :=
  { project_id := 10
    results := [⟨500, 200, 0, "first", pyRound4 (1 - 0)⟩,
                ⟨501, 200, 1, "second", pyRound4 (1 - 0)⟩] }

/-- Tied response in the reverse of insertion order. -/
def respT10 : QueryResponse :=
  { project_id := 10
    results := [⟨501, 200, 1, "second", pyRound4 (1 - 0)⟩,
                ⟨500, 200, 0, "first", pyRound4 (1 - 0)⟩] }

/-- The query relation admits the insertion-order response on `stT`. -/
theorem stT_query_admits_respT01 :
    similarity_search dZero stT "kt" 10 qv 2 (Except.ok respT01) :=
  Or.inr (Or.inr ⟨by decide, by rw [qv, List.length_replicate]; rfl,
    ⟨[chunkT0, chunkT1], List.mem_permutations.mpr (List.Perm.refl _), rfl, rfl⟩⟩)

/-- The query relation also admits the reversed response on `stT`. -/
theorem stT_query_admits_respT10 :
    similarity_search dZero stT "kt" 10 qv 2 (Except.ok respT10) :=
  Or.inr (Or.inr ⟨by decide, by rw [qv, List.length_replicate]; rfl,
    ⟨[chunkT1, chunkT0], List.mem_permutations.mpr (List.Perm.swap chunkT0 chunkT1 []),
     rfl, rfl⟩⟩)

/-- C8 counterexample: on a store whose two candidates are at exactly
equal distance, the SQL `ORDER BY` (single key, no tie-break) admits both
the insertion-order response and its reverse: the reverse is an
admissible outcome whose equal-scoring rows are NOT in chunk creation
order, and two admissible responses to the same query differ — so the
claimed tie-break and the claimed identical-repetition guarantee are both
false of the code. -/
theorem C8_counterexample_tie_order_not_deterministic :
    stT.chunks.map DocumentChunk.id = [500, 501] ∧
    similarity_search dZero stT "kt" 10 qv 2 (Except.ok respT01) ∧
    similarity_search dZero stT "kt" 10 qv 2 (Except.ok respT10) ∧
    respT01 ≠ respT10 ∧
    respT01.results.map ChunkMatch.chunk_id = [500, 501] ∧
    respT10.results.map ChunkMatch.chunk_id = [501, 500] ∧
    respT01.results.map ChunkMatch.score = respT10.results.map ChunkMatch.score := by
  refine ⟨rfl, stT_query_admits_respT01, stT_query_admits_respT10, ?_, rfl, rfl, rfl⟩
  intro hcontra
  have hids := congrArg (fun r => r.results.map ChunkMatch.chunk_id) hcontra
  simp [respT01, respT10] at hids

/-- Witness for the amended C8 at the concrete tied store. -/
theorem C8_amended_score_sequence_deterministic_witness :
    (similarity_search dZero stT "kt" 10 qv 2 (Except.ok respT01) ∧
     similarity_search dZero stT "kt" 10 qv 2 (Except.ok respT10)) ∧
    (respT01.project_id = respT10.project_id ∧
     respT01.results.length = respT10.results.length ∧
     respT01.results.map ChunkMatch.score = respT10.results.map ChunkMatch.score) :=
  ⟨⟨stT_query_admits_respT01, stT_query_admits_respT10⟩,
   C8_amended_score_sequence_deterministic dZero stT "kt" 10 qv 2 respT01 respT10
     stT_query_admits_respT01 stT_query_admits_respT10⟩

/- ── C2: dimension mismatch handling ─────────────────────────────────── -/

/-- Any batch containing an embedding of the wrong dimension can never
commit: the vector column refuses the row, so `ingest_chunks` ends in an
error on every path. -/
theorem ingest_chunks_never_ok_of_bad_dim
    {st : DB} {h : String} {team pid : Nat} {body : IngestRequest}
    {c : ChunkCreate} {v : List ℚ}
    (hc : c ∈ body.chunks) (he : c.embedding = some v)
    (hv : v.length ≠ EMBEDDING_DIM) :
    exceptIsOk (ingest_chunks st h team pid body) = false := by
  have hall : body.chunks.all chunkCreateOk = false := by
    cases hab : body.chunks.all chunkCreateOk with
    | false => rfl
    | true =>
      exfalso
      have hok := List.all_eq_true.mp hab c hc
      simp only [chunkCreateOk, he, beq_iff_eq] at hok
      exact hv hok
  cases hg : get_api_key st h with
  | none =>
    unfold ingest_chunks
    simp only [hg]
    rfl
  | some key =>
    unfold ingest_chunks
    simp only [hg]
    by_cases ht : key.team_id ≠ team
    · rw [if_pos ht]; rfl
    · rw [if_neg ht]
      rw [if_neg]
      · rfl
      · intro habs
        have hrows : (mkRows (freshDocId st) (freshChunkId st) body.chunks).all
            chunkRowOk = true := by
          simp only [ingestCommitOk, insertOk, Bool.and_eq_true] at habs
          tauto
        rw [mkRows_all_chunkRowOk, hall] at hrows
        cases hrows

/-- C2 (amended): a wrong-dimension vector is rejected everywhere, but
with different error classes: the query endpoint rejects it with a 422
validation error before touching the store; the `ingest_chunks` endpoint
performs no dimension validation of its own, so the bad batch dies at the
database vector column — still persisting nothing, but as a commit-time
constraint failure, not a validation error; only the (uncalled) service
helper `insert_document_chunks` raises a validation error before any
write. -/
theorem C2_amended_dim_mismatch_rejected
    (dist : List ℚ → List ℚ → ℚ) (st st2 st3 : DB) (h h2 : String)
    (pid team pid2 docId : Nat) (v : List ℚ) (k : Nat)
    (out : Except ApiError QueryResponse) (body : IngestRequest)
    (c1 : ChunkCreate) (chs : List InsertChunk) (c2 : InsertChunk)
    (hv : v.length ≠ EMBEDDING_DIM)
    (hauth : get_api_key st h ≠ none)
    (hq : similarity_search dist st h pid v k out)
    (hc1 : c1 ∈ body.chunks) (he1 : c1.embedding = some v)
    (hc2 : c2 ∈ chs) (he2 : c2.embedding = some v) :
    out = Except.error ApiError.validation ∧
    exceptIsOk (ingest_chunks st2 h2 team pid2 body) = false ∧
    insert_document_chunks st3 docId chs = Except.error InsertError.valueError := by
  refine ⟨?_, ingest_chunks_never_ok_of_bad_dim hc1 he1 hv, ?_⟩
  · rcases hq with ⟨hnone, _⟩ | ⟨-, -, hout⟩ | ⟨-, hlen, -⟩
    · exact absurd hnone hauth
    · exact hout
    · exact absurd hlen hv
  · unfold insert_document_chunks
    rw [if_pos]
    exact List.any_eq_true.mpr ⟨c2, hc2, by rw [he2]; exact decide_eq_true hv⟩

/-- The wrong-dimension request chunk used by the C2 fixtures. -/
def chBad : ChunkCreate := { content := "x", chunk_index := 0, embedding := some [1, 2, 3] }

/-- The wrong-dimension ingestion batch used by the C2 fixtures. -/
def bodyC2 : IngestRequest := { title := "bad", chunks := [chBad] }

/-- The wrong-dimension service chunk dict used by the C2 fixtures. -/
def chC2 : InsertChunk := { chunk_index := 0, content := "x", embedding := some [1, 2, 3] }

/-- C2 counterexample: a 3-entry embedding posted to the ingestion
endpoint is not rejected with a validation error — the handler validates
nothing and the request dies at the database as a commit-time
`constraint` error (still persisting no rows). -/
theorem C2_counterexample_ingest_dim_error_not_validation :
    bodyC2.chunks.map ChunkCreate.embedding = [some [(1 : ℚ), 2, 3]] ∧
    ([(1 : ℚ), 2, 3] : List ℚ).length ≠ EMBEDDING_DIM ∧
    ingest_chunks stW5 "k5" 1 10 bodyC2 = Except.error ApiError.constraint ∧
    ApiError.constraint ≠ ApiError.validation := by
  refine ⟨rfl, by decide, ?_, by decide⟩
  decide

/-- Witness for the amended C2 at concrete inputs. -/
theorem C2_amended_dim_mismatch_rejected_witness :
    (([(1 : ℚ), 2, 3] : List ℚ).length ≠ EMBEDDING_DIM ∧
     get_api_key stW5 "k5" ≠ none ∧
     similarity_search dZero stW5 "k5" 10 [(1 : ℚ), 2, 3] 5
       (Except.error ApiError.validation) ∧
     chBad.embedding = some [(1 : ℚ), 2, 3] ∧ chC2.embedding = some [(1 : ℚ), 2, 3]) ∧
    (Except.error ApiError.validation
        = (Except.error ApiError.validation : Except ApiError QueryResponse) ∧
     exceptIsOk (ingest_chunks stW5 "k5" 1 10 bodyC2) = false ∧
     insert_document_chunks stW5 0 [chC2] = Except.error InsertError.valueError) :=
  ⟨⟨by decide, by decide, Or.inr (Or.inl ⟨by decide, by decide, rfl⟩), rfl, rfl⟩,
   C2_amended_dim_mismatch_rejected dZero stW5 stW5 stW5 "k5" "k5" 10 1 10 0
     [(1 : ℚ), 2, 3] 5 (Except.error ApiError.validation) bodyC2 chBad [chC2] chC2
     (by decide) (by decide) (Or.inr (Or.inl ⟨by decide, by decide, rfl⟩))
     (List.mem_cons_self chBad []) rfl (List.mem_cons_self chC2 []) rfl⟩

/- ── C9: chunk content is never validated ────────────────────────────── -/

/-- The empty-content ingestion batch used by the C9 fixtures. -/
def bodyC9 : IngestRequest :=
  { title := "t9", chunks := [{ content := "", chunk_index := 0 }] }

/-- C9 counterexample: a batch whose only chunk has empty content is
accepted (201) and the empty-content chunk row is persisted — no
validation rejects it. -/
theorem C9_counterexample_empty_content_persisted :
    bodyC9.chunks.map ChunkCreate.content = [""] ∧
    exceptIsOk (ingest_chunks stW5 "k5" 1 10 bodyC9) = true ∧
    contentsAfter stW5 (ingest_chunks stW5 "k5" 1 10 bodyC9) = [""] := by
  refine ⟨rfl, ?_, ?_⟩ <;> decide

/-- C9 (amended): neither the request schema nor the chunk table
constrains `content`: any batch that satisfies the real commit-time
constraints (existing team and project, unique chunk indexes, correct
embedding dimensions) is persisted verbatim, its contents — empty strings
included — stored unchanged. -/
theorem C9_amended_content_never_validated
    (st : DB) (h : String) (k : ApiKey) (team pid : Nat) (body : IngestRequest)
    (hk : get_api_key st h = some k) (hteam : k.team_id = team)
    (hteamfk : st.teams.any (fun t => t.id == team) = true)
    (hprojfk : st.projects.any (fun p => p.id == pid) = true)
    (hfk : chunkFk st)
    (hdims : body.chunks.all chunkCreateOk = true)
    (hnodup : hasDupIdx body.chunks = false) :
    exceptIsOk (ingest_chunks st h team pid body) = true ∧
    contentsAfter st (ingest_chunks st h team pid body)
      = st.chunks.map DocumentChunk.content ++ body.chunks.map ChunkCreate.content := by
  subst hteam
  have hcommit : ingestCommitOk st (ingestDoc st k.team_id pid body)
      (mkRows (freshDocId st) (freshChunkId st) body.chunks) = true := by
    simp [ingestCommitOk, insertOk, mkRows_all_chunkRowOk, hdims,
      noConflictWithin_mkRows, hnodup,
      noConflictAcross_mkRows (freshDocId_not_referenced hfk), ingestDoc,
      hteamfk, hprojfk]
  have hout : ingest_chunks st h k.team_id pid body
      = Except.ok
          (ingestResult st (ingestDoc st k.team_id pid body)
            (mkRows (freshDocId st) (freshChunkId st) body.chunks)
            (ingestJob st (freshDocId st) body.chunks.length),
           ingestDoc st k.team_id pid body) := by
    unfold ingest_chunks
    simp only [hk]
    rw [if_neg (by simp)]
    rw [if_pos hcommit]
  rw [hout]
  refine ⟨rfl, ?_⟩
  simp [contentsAfter, ingestResult, mkRows_map_content]

/-- Witness for the amended C9 at the empty-content batch. -/
theorem C9_amended_content_never_validated_witness :
    (get_api_key stW5 "k5" = some keyW5 ∧ keyW5.team_id = 1 ∧
     stW5.teams.any (fun t => t.id == 1) = true ∧
     stW5.projects.any (fun p => p.id == 10) = true ∧
     bodyC9.chunks.all chunkCreateOk = true ∧
     hasDupIdx bodyC9.chunks = false ∧
     bodyC9.chunks.map ChunkCreate.content = [""]) ∧
    (exceptIsOk (ingest_chunks stW5 "k5" 1 10 bodyC9) = true ∧
     contentsAfter stW5 (ingest_chunks stW5 "k5" 1 10 bodyC9)
       = stW5.chunks.map DocumentChunk.content ++ bodyC9.chunks.map ChunkCreate.content) :=
  ⟨⟨by decide, by decide, by decide, by decide, by decide, by decide, rfl⟩,
   C9_amended_content_never_validated stW5 "k5" keyW5 1 10 bodyC9 (by decide)
     (by decide) (by decide) (by decide) (by intro c hc; cases hc) (by decide)
     (by decide)⟩

end App
